import Mathlib

set_option maxHeartbeats 1000000

/-!
Verification of the Etherscan request-builder library: a shallow embedding of
the enums, the request record, the endpoint-family constructors and the
order-fixed query-string renderer, together with theorems checking the
specification's claims against that embedding.

256-bit unsigned integers (the collaborator big-integer type) are embedded as
Nat; the fields that hold them are rendered by the uppercase-hex and decimal
formatters modelled below.
-/

/-- API subsystem selector (lowercase serde tags). -/
inductive EtherscanModule where
  | Unknown
  | Account
  | Contract
  | Transaction
  | Block
  | Stats

/-- Sort direction with explicit serde aliases asc and desc. -/
inductive EtherscanSort where
  | Ascending
  | Descending

/-- Operation selector within a module (lowercase serde tags). -/
inductive EtherscanAction where
  | Unknown
  | Balance
  | BalanceMulti
  | TxList
  | TxListInternal
  | TokenTx
  | TokenNftTx
  | TokenBalance
  | GetABI
  | GetSourceCode
  | GetStatus
  | GetTxReceiptStatus
  | GetBlockReward
  | GetBlockCountdown
  | GetBlockNoByTime
  | TokenSupply
  | EthSupply
  | EthSupply2
  | EthPrice
  | NodeCount

/-- Block-reference shorthand; only latest exists. -/
inductive EtherscanTag where
  | Latest

/-- Response format; only raw exists. -/
inductive EtherscanFormat where
  | Raw

/-- Digit character for a value below 16: 0-9 then uppercase A-F, as the
collaborator integer type's UpperHex and Display formatting uses. -/
def upperDigitChar (d : Nat) : Char :=
  if d < 10 then Char.ofNat (48 + d) else Char.ofNat (55 + d)

/-- Most-significant-first uppercase hexadecimal digit list of a natural
number; zero renders as the single digit 0, and there are no leading zeros. -/
def hexChars (n : Nat) : List Char :=
  if n < 16 then [upperDigitChar n]
  else hexChars (n / 16) ++ [upperDigitChar (n % 16)]
termination_by n
decreasing_by exact Nat.div_lt_self (by omega) (by omega)

/-- Most-significant-first decimal digit list of a natural number; zero
renders as the single digit 0, and there are no leading zeros. -/
def decChars (n : Nat) : List Char :=
  if n < 10 then [upperDigitChar n]
  else decChars (n / 10) ++ [upperDigitChar (n % 10)]
termination_by n
decreasing_by exact Nat.div_lt_self (by omega) (by omega)

/-- Fuel-driven accumulator version of the uppercase-hex digit list, mirroring
how a formatting loop peels digits from the least significant end. -/
def toUpperHexCore : Nat → Nat → List Char → List Char
  | 0, _, acc => acc
  | fuel + 1, n, acc =>
    let acc := upperDigitChar (n % 16) :: acc
    if n < 16 then acc else toUpperHexCore fuel (n / 16) acc

/-- Model of the 256-bit integer's UpperHex formatting: uppercase hexadecimal
digits, most significant first, zero printed as the single digit 0. -/
def toUpperHex (n : Nat) : String :=
  String.mk (toUpperHexCore (n + 1) n [])

/-- Fuel-driven accumulator version of the decimal digit list. -/
def toDecCore : Nat → Nat → List Char → List Char
  | 0, _, acc => acc
  | fuel + 1, n, acc =>
    let acc := upperDigitChar (n % 10) :: acc
    if n < 10 then acc else toDecCore fuel (n / 10) acc

/-- Model of the 256-bit integer's Display formatting: plain decimal digits,
most significant first, zero printed as the single digit 0. -/
def toDec (n : Nat) : String :=
  String.mk (toDecCore (n + 1) n [])

/-- Recognizer for the characters the uppercase-hex renderer may emit. -/
def isUpperHexDigit (c : Char) : Bool :=
  (decide ('0' ≤ c) && decide (c ≤ '9')) || (decide ('A' ≤ c) && decide (c ≤ 'F'))

/-- Recognizer for plain decimal digit characters. -/
def isDecDigit (c : Char) : Bool :=
  decide ('0' ≤ c) && decide (c ≤ '9')

/-- Numeric value of an uppercase hexadecimal digit character. -/
def hexDigitVal (c : Char) : Nat :=
  if decide (c ≤ '9') then c.toNat - 48 else c.toNat - 55

/-- The accumulated request state: base URL, joint module/action pair, and
thirteen optional query parameters, all optional, mirroring the source
struct field for field. -/
structure EtherscanRequest where
  url : Option String
  module_action : Option (EtherscanModule × EtherscanAction)
  contractaddress : Option Nat
  address : Option (List Nat)
  tag : Option EtherscanTag
  startblock : Option Nat
  endblock : Option Nat
  page : Option Nat
  offset : Option Nat
  sort : Option EtherscanSort
  txhash : Option Nat
  blockno : Option Nat
  timestamp : Option Nat
  format : Option EtherscanFormat
  apikey : Option String

/-- The Default impl: every field absent. -/
def EtherscanRequest.default : EtherscanRequest :=
  ⟨none, none, none, none, none, none, none, none, none, none, none, none,
   none, none, none⟩

def EtherscanRequest.with_url (r : EtherscanRequest) (url : String) : EtherscanRequest :=
  { r with url := some url }

def EtherscanRequest.with_apikey (r : EtherscanRequest) (apikey : String) : EtherscanRequest :=
  { r with apikey := some apikey }

def EtherscanRequest.with_format (r : EtherscanRequest) (format : EtherscanFormat) : EtherscanRequest :=
  { r with format := some format }

def EtherscanRequest.account_balance (address : Nat) (tag : Option EtherscanTag) : EtherscanRequest :=
  { EtherscanRequest.default with
    module_action := some (EtherscanModule.Account, EtherscanAction.Balance)
    address := some [address]
    tag := tag }

def EtherscanRequest.account_balance_multi (addresses : List Nat) (tag : Option EtherscanTag) : EtherscanRequest :=
  { EtherscanRequest.default with
    module_action := some (EtherscanModule.Account, EtherscanAction.BalanceMulti)
    address := some addresses
    tag := tag }

def EtherscanRequest.account_tx_list (address : Nat) (startblock endblock page offset : Option Nat) (sort : Option EtherscanSort) : EtherscanRequest :=
  { EtherscanRequest.default with
    module_action := some (EtherscanModule.Account, EtherscanAction.TxList)
    address := some [address]
    startblock := startblock
    endblock := endblock
    page := page
    offset := offset
    sort := sort }

def EtherscanRequest.account_tx_list_internal (address : Nat) (startblock endblock page offset : Option Nat) (sort : Option EtherscanSort) : EtherscanRequest :=
  { EtherscanRequest.default with
    module_action := some (EtherscanModule.Account, EtherscanAction.TxListInternal)
    address := some [address]
    startblock := startblock
    endblock := endblock
    page := page
    offset := offset
    sort := sort }

def EtherscanRequest.account_tx_list_internal_hash (txhash : Nat) : EtherscanRequest :=
  { EtherscanRequest.default with
    module_action := some (EtherscanModule.Account, EtherscanAction.TxListInternal)
    txhash := some txhash }

def EtherscanRequest.account_token_tx (contract_address account_address : Option Nat) (startblock endblock page offset : Option Nat) (sort : Option EtherscanSort) : EtherscanRequest :=
  { EtherscanRequest.default with
    module_action := some (EtherscanModule.Account, EtherscanAction.TokenTx)
    contractaddress := contract_address
    address := account_address.map (fun x => [x])
    page := page
    offset := offset
    startblock := startblock
    endblock := endblock
    sort := sort }

def EtherscanRequest.account_token_nft_tx (contract_address address : Nat) (startblock endblock page offset : Option Nat) (sort : Option EtherscanSort) : EtherscanRequest :=
  { EtherscanRequest.default with
    module_action := some (EtherscanModule.Account, EtherscanAction.TokenNftTx)
    contractaddress := some contract_address
    address := some [address]
    startblock := startblock
    endblock := endblock
    page := page
    offset := offset
    sort := sort }

def EtherscanRequest.account_token_balance (account_address contract_address : Nat) (tag : Option EtherscanTag) : EtherscanRequest :=
  { EtherscanRequest.default with
    module_action := some (EtherscanModule.Account, EtherscanAction.TokenBalance)
    contractaddress := some contract_address
    address := some [account_address]
    tag := tag }

def EtherscanRequest.contract_get_abi (contract_address : Nat) : EtherscanRequest :=
  { EtherscanRequest.default with
    module_action := some (EtherscanModule.Contract, EtherscanAction.GetABI)
    address := some [contract_address] }

def EtherscanRequest.contract_get_source_code (contract_address : Nat) : EtherscanRequest :=
  { EtherscanRequest.default with
    module_action := some (EtherscanModule.Contract, EtherscanAction.GetSourceCode)
    address := some [contract_address] }

def EtherscanRequest.transaction_get_status (transaction_hash : Nat) : EtherscanRequest :=
  { EtherscanRequest.default with
    module_action := some (EtherscanModule.Transaction, EtherscanAction.GetStatus)
    txhash := some transaction_hash }

def EtherscanRequest.transaction_get_receipt_status (transaction_hash : Nat) : EtherscanRequest :=
  { EtherscanRequest.default with
    module_action := some (EtherscanModule.Transaction, EtherscanAction.GetTxReceiptStatus)
    txhash := some transaction_hash }

def EtherscanRequest.block_get_countdown (block_number : Nat) : EtherscanRequest :=
  { EtherscanRequest.default with
    module_action := some (EtherscanModule.Block, EtherscanAction.GetBlockCountdown)
    blockno := some block_number }

def EtherscanRequest.block_get_number_by_timestamp (timestamp : Nat) : EtherscanRequest :=
  { EtherscanRequest.default with
    module_action := some (EtherscanModule.Block, EtherscanAction.GetBlockNoByTime)
    timestamp := some timestamp }

def EtherscanRequest.stats_token_supply (contract_address : Nat) : EtherscanRequest :=
  { EtherscanRequest.default with
    module_action := some (EtherscanModule.Stats, EtherscanAction.TokenSupply)
    contractaddress := some contract_address }

def EtherscanRequest.stats_eth_supply : EtherscanRequest :=
  { EtherscanRequest.default with
    module_action := some (EtherscanModule.Stats, EtherscanAction.EthSupply) }

def EtherscanRequest.stats_eth2_supply : EtherscanRequest :=
  { EtherscanRequest.default with
    module_action := some (EtherscanModule.Stats, EtherscanAction.EthSupply2) }

def EtherscanRequest.stats_eth_price : EtherscanRequest :=
  { EtherscanRequest.default with
    module_action := some (EtherscanModule.Stats, EtherscanAction.EthPrice) }

def EtherscanRequest.stats_node_count : EtherscanRequest :=
  { EtherscanRequest.default with
    module_action := some (EtherscanModule.Stats, EtherscanAction.NodeCount) }

/-- Model of serde_plain::to_string for EtherscanModule with rename_all
lowercase: the derived serializer emits each unit variant's lowercased name
and succeeds on every variant. -/
def serde_to_string_module : EtherscanModule → Except String String
  | .Unknown => .ok "unknown"
  | .Account => .ok "account"
  | .Contract => .ok "contract"
  | .Transaction => .ok "transaction"
  | .Block => .ok "block"
  | .Stats => .ok "stats"

/-- Model of serde_plain::to_string for EtherscanAction with rename_all
lowercase. -/
def serde_to_string_action : EtherscanAction → Except String String
  | .Unknown => .ok "unknown"
  | .Balance => .ok "balance"
  | .BalanceMulti => .ok "balancemulti"
  | .TxList => .ok "txlist"
  | .TxListInternal => .ok "txlistinternal"
  | .TokenTx => .ok "tokentx"
  | .TokenNftTx => .ok "tokennfttx"
  | .TokenBalance => .ok "tokenbalance"
  | .GetABI => .ok "getabi"
  | .GetSourceCode => .ok "getsourcecode"
  | .GetStatus => .ok "getstatus"
  | .GetTxReceiptStatus => .ok "gettxreceiptstatus"
  | .GetBlockReward => .ok "getblockreward"
  | .GetBlockCountdown => .ok "getblockcountdown"
  | .GetBlockNoByTime => .ok "getblocknobytime"
  | .TokenSupply => .ok "tokensupply"
  | .EthSupply => .ok "ethsupply"
  | .EthSupply2 => .ok "ethsupply2"
  | .EthPrice => .ok "ethprice"
  | .NodeCount => .ok "nodecount"

/-- Model of serde_plain::to_string for EtherscanTag. -/
def serde_to_string_tag : EtherscanTag → Except String String
  | .Latest => .ok "latest"

/-- Model of serde_plain::to_string for EtherscanSort with the explicit
renames asc and desc. -/
def serde_to_string_sort : EtherscanSort → Except String String
  | .Ascending => .ok "asc"
  | .Descending => .ok "desc"

/-- Model of serde_plain::to_string for EtherscanFormat. -/
def serde_to_string_format : EtherscanFormat → Except String String
  | .Raw => .ok "raw"

/-- Pure lowercase tag of a module variant. -/
def moduleLabel : EtherscanModule → String
  | .Unknown => "unknown"
  | .Account => "account"
  | .Contract => "contract"
  | .Transaction => "transaction"
  | .Block => "block"
  | .Stats => "stats"

/-- Pure lowercase tag of an action variant. -/
def actionLabel : EtherscanAction → String
  | .Unknown => "unknown"
  | .Balance => "balance"
  | .BalanceMulti => "balancemulti"
  | .TxList => "txlist"
  | .TxListInternal => "txlistinternal"
  | .TokenTx => "tokentx"
  | .TokenNftTx => "tokennfttx"
  | .TokenBalance => "tokenbalance"
  | .GetABI => "getabi"
  | .GetSourceCode => "getsourcecode"
  | .GetStatus => "getstatus"
  | .GetTxReceiptStatus => "gettxreceiptstatus"
  | .GetBlockReward => "getblockreward"
  | .GetBlockCountdown => "getblockcountdown"
  | .GetBlockNoByTime => "getblocknobytime"
  | .TokenSupply => "tokensupply"
  | .EthSupply => "ethsupply"
  | .EthSupply2 => "ethsupply2"
  | .EthPrice => "ethprice"
  | .NodeCount => "nodecount"

/-- Pure tag of the block-reference shorthand. -/
def tagLabel : EtherscanTag → String
  | .Latest => "latest"

/-- Pure tag of a sort direction (explicit aliases asc and desc). -/
def sortLabel : EtherscanSort → String
  | .Ascending => "asc"
  | .Descending => "desc"

/-- Pure tag of the response format. -/
def formatLabel : EtherscanFormat → String
  | .Raw => "raw"

/-- Comma-joining of rendered strings, as Vec join with separator comma. -/
def joinComma : List String → String
  | [] => ""
  | [s] => s
  | s :: rest => s ++ "," ++ joinComma rest

/-- The terminal rendering step of the source: the order-fixed concatenation
of sixteen segments, each optional field contributing its segment when
present and the empty string when absent, in the Except monad because each
enum tag is produced by the fallible serde_plain serialization. The URL the
source passes to the HTTP client is exactly the returned string. -/
def EtherscanRequest.build (r : EtherscanRequest) : Except String String := do
  let urlSeg := match r.url with
    | some url => url
    | none => ""
  let moduleSeg ← match r.module_action with
    | some (m, _) => (serde_to_string_module m).map (fun s => "?module=" ++ s)
    | none => Except.ok ""
  let actionSeg ← match r.module_action with
    | some (_, a) => (serde_to_string_action a).map (fun s => "&action=" ++ s)
    | none => Except.ok ""
  let contractaddressSeg := match r.contractaddress with
    | some v => "&contractaddress=0x" ++ toUpperHex v
    | none => ""
  let addressSeg := match r.address with
    | some xs => "&address=" ++ joinComma (xs.map (fun x => "0x" ++ toUpperHex x))
    | none => ""
  let tagSeg ← match r.tag with
    | some t => (serde_to_string_tag t).map (fun s => "&tag=" ++ s)
    | none => Except.ok ""
  let pageSeg := match r.page with
    | some v => "&page=" ++ toDec v
    | none => ""
  let offsetSeg := match r.offset with
    | some v => "&offset=" ++ toDec v
    | none => ""
  let startblockSeg := match r.startblock with
    | some v => "&startblock=" ++ toDec v
    | none => ""
  let endblockSeg := match r.endblock with
    | some v => "&endblock=" ++ toDec v
    | none => ""
  let sortSeg ← match r.sort with
    | some s => (serde_to_string_sort s).map (fun x => "&sort=" ++ x)
    | none => Except.ok ""
  let txhashSeg := match r.txhash with
    | some v => "&txhash=0x" ++ toUpperHex v
    | none => ""
  let blocknoSeg := match r.blockno with
    | some v => "&blockno=" ++ toDec v
    | none => ""
  let timestampSeg := match r.timestamp with
    | some v => "&timestamp=" ++ toDec v
    | none => ""
  let formatSeg ← match r.format with
    | some f => (serde_to_string_format f).map (fun s => "&format=" ++ s)
    | none => Except.ok ""
  let apikeySeg := match r.apikey with
    | some k => "&apikey=" ++ k
    | none => ""
  pure (urlSeg ++ moduleSeg ++ actionSeg ++ contractaddressSeg ++ addressSeg ++
    tagSeg ++ pageSeg ++ offsetSeg ++ startblockSeg ++ endblockSeg ++ sortSeg ++
    txhashSeg ++ blocknoSeg ++ timestampSeg ++ formatSeg ++ apikeySeg)

/-- The pure rendering: base URL first, then the module and action segments
exactly when the joint pair is present, then one segment per present optional
field in the fixed order contractaddress, address, tag, page, offset,
startblock, endblock, sort, txhash, blockno, timestamp, format, apikey, an
absent field contributing the empty string. -/
def EtherscanRequest.buildString (r : EtherscanRequest) : String :=
  (match r.url with | some url => url | none => "") ++
  (match r.module_action with | some (m, _) => "?module=" ++ moduleLabel m | none => "") ++
  (match r.module_action with | some (_, a) => "&action=" ++ actionLabel a | none => "") ++
  (match r.contractaddress with | some v => "&contractaddress=0x" ++ toUpperHex v | none => "") ++
  (match r.address with | some xs => "&address=" ++ joinComma (xs.map (fun x => "0x" ++ toUpperHex x)) | none => "") ++
  (match r.tag with | some t => "&tag=" ++ tagLabel t | none => "") ++
  (match r.page with | some v => "&page=" ++ toDec v | none => "") ++
  (match r.offset with | some v => "&offset=" ++ toDec v | none => "") ++
  (match r.startblock with | some v => "&startblock=" ++ toDec v | none => "") ++
  (match r.endblock with | some v => "&endblock=" ++ toDec v | none => "") ++
  (match r.sort with | some s => "&sort=" ++ sortLabel s | none => "") ++
  (match r.txhash with | some v => "&txhash=0x" ++ toUpperHex v | none => "") ++
  (match r.blockno with | some v => "&blockno=" ++ toDec v | none => "") ++
  (match r.timestamp with | some v => "&timestamp=" ++ toDec v | none => "") ++
  (match r.format with | some f => "&format=" ++ formatLabel f | none => "") ++
  (match r.apikey with | some k => "&apikey=" ++ k | none => "")

/-- Modelled from the spec: the collaborator large-unsigned-integer type must
support parsing (it is out of scope in the source, which only renders);
parsing strips one leading 0x prefix and folds hexadecimal digit values. -/
def parseHex (s : String) : Nat :=
  match s.data with
  | '0' :: 'x' :: rest => rest.foldl (fun a c => 16 * a + hexDigitVal c) 0
  | l => l.foldl (fun a c => 16 * a + hexDigitVal c) 0

/-- The base-URL part of the rendering: the url field, or empty if absent. -/
def EtherscanRequest.urlPart (r : EtherscanRequest) : String :=
  match r.url with
  | some url => url
  | none => ""

/-- The thirteen optional-field segments that follow the module and action
segments in the rendering, in their fixed order. -/
def EtherscanRequest.tailSegments (r : EtherscanRequest) : String :=
  (match r.contractaddress with | some v => "&contractaddress=0x" ++ toUpperHex v | none => "") ++
  (match r.address with | some xs => "&address=" ++ joinComma (xs.map (fun x => "0x" ++ toUpperHex x)) | none => "") ++
  (match r.tag with | some t => "&tag=" ++ tagLabel t | none => "") ++
  (match r.page with | some v => "&page=" ++ toDec v | none => "") ++
  (match r.offset with | some v => "&offset=" ++ toDec v | none => "") ++
  (match r.startblock with | some v => "&startblock=" ++ toDec v | none => "") ++
  (match r.endblock with | some v => "&endblock=" ++ toDec v | none => "") ++
  (match r.sort with | some s => "&sort=" ++ sortLabel s | none => "") ++
  (match r.txhash with | some v => "&txhash=0x" ++ toUpperHex v | none => "") ++
  (match r.blockno with | some v => "&blockno=" ++ toDec v | none => "") ++
  (match r.timestamp with | some v => "&timestamp=" ++ toDec v | none => "") ++
  (match r.format with | some f => "&format=" ++ formatLabel f | none => "") ++
  (match r.apikey with | some k => "&apikey=" ++ k | none => "")

theorem toUpperHexCore_eq_hexChars :
    ∀ (fuel n : Nat) (acc : List Char), 0 < fuel → n < 16 ^ fuel →
      toUpperHexCore fuel n acc = hexChars n ++ acc := by
  intro fuel
  induction fuel with
  | zero => intro n acc h; omega
  | succ fuel ih =>
    intro n acc _ hlt
    by_cases h16 : n < 16
    · rw [hexChars]
      simp [toUpperHexCore, h16, Nat.mod_eq_of_lt h16]
    · have hf : 0 < fuel := by
        rcases Nat.eq_zero_or_pos fuel with h0 | h0
        · subst h0; simp at hlt; omega
        · exact h0
      have hdiv : n / 16 < 16 ^ fuel := by
        rw [Nat.div_lt_iff_lt_mul (by omega)]
        calc n < 16 ^ (fuel + 1) := hlt
          _ = 16 ^ fuel * 16 := by rw [pow_succ]
      have hstep : toUpperHexCore (fuel + 1) n acc
          = toUpperHexCore fuel (n / 16) (upperDigitChar (n % 16) :: acc) := by
        simp [toUpperHexCore, h16]
      rw [hstep, ih _ _ hf hdiv]
      conv_rhs => rw [hexChars]
      rw [if_neg h16]
      simp [List.append_assoc]

theorem toDecCore_eq_decChars :
    ∀ (fuel n : Nat) (acc : List Char), 0 < fuel → n < 10 ^ fuel →
      toDecCore fuel n acc = decChars n ++ acc := by
  intro fuel
  induction fuel with
  | zero => intro n acc h; omega
  | succ fuel ih =>
    intro n acc _ hlt
    by_cases h10 : n < 10
    · rw [decChars]
      simp [toDecCore, h10, Nat.mod_eq_of_lt h10]
    · have hf : 0 < fuel := by
        rcases Nat.eq_zero_or_pos fuel with h0 | h0
        · subst h0; simp at hlt; omega
        · exact h0
      have hdiv : n / 10 < 10 ^ fuel := by
        rw [Nat.div_lt_iff_lt_mul (by omega)]
        calc n < 10 ^ (fuel + 1) := hlt
          _ = 10 ^ fuel * 10 := by rw [pow_succ]
      have hstep : toDecCore (fuel + 1) n acc
          = toDecCore fuel (n / 10) (upperDigitChar (n % 10) :: acc) := by
        simp [toDecCore, h10]
      rw [hstep, ih _ _ hf hdiv]
      conv_rhs => rw [decChars]
      rw [if_neg h10]
      simp [List.append_assoc]

theorem toUpperHex_data (n : Nat) : (toUpperHex n).data = hexChars n := by
  have hb : n < 16 ^ (n + 1) := by
    have h1 : n < 2 ^ (n + 1) :=
      Nat.lt_of_le_of_lt (Nat.le_succ n) (Nat.lt_two_pow (n + 1))
    have h2 : (2 : Nat) ^ (n + 1) ≤ 16 ^ (n + 1) :=
      Nat.pow_le_pow_left (by omega) (n + 1)
    calc n < 2 ^ (n + 1) := h1
      _ ≤ 16 ^ (n + 1) := h2
  show (toUpperHexCore (n + 1) n []) = hexChars n
  rw [toUpperHexCore_eq_hexChars (n + 1) n [] (by omega) hb]
  simp

theorem toDec_data (n : Nat) : (toDec n).data = decChars n := by
  have hb : n < 10 ^ (n + 1) := by
    have h1 : n < 2 ^ (n + 1) :=
      Nat.lt_of_le_of_lt (Nat.le_succ n) (Nat.lt_two_pow (n + 1))
    have h2 : (2 : Nat) ^ (n + 1) ≤ 10 ^ (n + 1) :=
      Nat.pow_le_pow_left (by omega) (n + 1)
    calc n < 2 ^ (n + 1) := h1
      _ ≤ 10 ^ (n + 1) := h2
  show (toDecCore (n + 1) n []) = decChars n
  rw [toDecCore_eq_decChars (n + 1) n [] (by omega) hb]
  simp

theorem upperDigitChar_facts :
    ∀ d : Nat, d < 16 →
      isUpperHexDigit (upperDigitChar d) = true ∧
      hexDigitVal (upperDigitChar d) = d ∧
      (upperDigitChar d = '0' ↔ d = 0) ∧
      (d < 10 → isDecDigit (upperDigitChar d) = true) := by
  decide

theorem hexChars_ne_nil (n : Nat) : hexChars n ≠ [] := by
  rw [hexChars]
  by_cases h : n < 16
  · simp [h]
  · simp [h]

theorem decChars_ne_nil (n : Nat) : decChars n ≠ [] := by
  rw [decChars]
  by_cases h : n < 10
  · simp [h]
  · simp [h]

theorem mem_hexChars_isUpperHexDigit :
    ∀ (n : Nat), ∀ c ∈ hexChars n, isUpperHexDigit c = true := by
  intro n
  induction n using Nat.strong_induction_on with
  | _ n ih =>
    intro c hc
    rw [hexChars] at hc
    by_cases h : n < 16
    · rw [if_pos h] at hc
      simp at hc
      subst hc
      exact (upperDigitChar_facts n h).1
    · rw [if_neg h] at hc
      rcases List.mem_append.mp hc with h1 | h2
      · exact ih (n / 16) (Nat.div_lt_self (by omega) (by omega)) c h1
      · simp at h2
        subst h2
        exact (upperDigitChar_facts (n % 16) (Nat.mod_lt n (by omega))).1

theorem mem_decChars_isDecDigit :
    ∀ (n : Nat), ∀ c ∈ decChars n, isDecDigit c = true := by
  intro n
  induction n using Nat.strong_induction_on with
  | _ n ih =>
    intro c hc
    rw [decChars] at hc
    by_cases h : n < 10
    · rw [if_pos h] at hc
      simp at hc
      subst hc
      exact (upperDigitChar_facts n (by omega)).2.2.2 h
    · rw [if_neg h] at hc
      rcases List.mem_append.mp hc with h1 | h2
      · exact ih (n / 10) (Nat.div_lt_self (by omega) (by omega)) c h1
      · simp at h2
        subst h2
        exact (upperDigitChar_facts (n % 10) (by omega)).2.2.2 (Nat.mod_lt n (by omega))

theorem hexChars_head_ne_zero :
    ∀ (n : Nat), n ≠ 0 → (hexChars n).head? ≠ some '0' := by
  intro n
  induction n using Nat.strong_induction_on with
  | _ n ih =>
    intro hn
    rw [hexChars]
    by_cases h : n < 16
    · rw [if_pos h]
      simp
      intro hz
      exact hn (((upperDigitChar_facts n h).2.2.1).mp hz)
    · rw [if_neg h]
      rw [List.head?_append_of_ne_nil _ (hexChars_ne_nil (n / 16))]
      exact ih (n / 16) (Nat.div_lt_self (by omega) (by omega)) (by omega)

theorem decChars_head_ne_zero :
    ∀ (n : Nat), n ≠ 0 → (decChars n).head? ≠ some '0' := by
  intro n
  induction n using Nat.strong_induction_on with
  | _ n ih =>
    intro hn
    rw [decChars]
    by_cases h : n < 10
    · rw [if_pos h]
      simp
      intro hz
      exact hn (((upperDigitChar_facts n (by omega)).2.2.1).mp hz)
    · rw [if_neg h]
      rw [List.head?_append_of_ne_nil _ (decChars_ne_nil (n / 10))]
      exact ih (n / 10) (Nat.div_lt_self (by omega) (by omega)) (by omega)

theorem foldl_hexChars :
    ∀ (n : Nat),
      List.foldl (fun a c => 16 * a + hexDigitVal c) 0 (hexChars n) = n := by
  intro n
  induction n using Nat.strong_induction_on with
  | _ n ih =>
    rw [hexChars]
    by_cases h : n < 16
    · rw [if_pos h]
      simp [(upperDigitChar_facts n h).2.1]
    · rw [if_neg h]
      rw [List.foldl_append]
      rw [ih (n / 16) (Nat.div_lt_self (by omega) (by omega))]
      simp [(upperDigitChar_facts (n % 16) (Nat.mod_lt n (by omega))).2.1]
      omega

theorem serde_module_ok (m : EtherscanModule) :
    serde_to_string_module m = Except.ok (moduleLabel m) := by
  cases m <;> rfl

theorem serde_action_ok (a : EtherscanAction) :
    serde_to_string_action a = Except.ok (actionLabel a) := by
  cases a <;> rfl

theorem serde_tag_ok (t : EtherscanTag) :
    serde_to_string_tag t = Except.ok (tagLabel t) := by
  cases t
  rfl

theorem serde_sort_ok (s : EtherscanSort) :
    serde_to_string_sort s = Except.ok (sortLabel s) := by
  cases s <;> rfl

theorem serde_format_ok (f : EtherscanFormat) :
    serde_to_string_format f = Except.ok (formatLabel f) := by
  cases f
  rfl

theorem build_eq_ok (r : EtherscanRequest) :
    r.build = Except.ok r.buildString := by
  obtain ⟨url, ma, ca, addr, tg, sb, eb, pg, off, srt, tx, bn, ts, fm, key⟩ := r
  rcases ma with _ | ⟨m, a⟩ <;> rcases tg with _ | t <;>
    rcases srt with _ | s <;> rcases fm with _ | f <;>
      simp only [EtherscanRequest.build, EtherscanRequest.buildString,
        serde_module_ok, serde_action_ok, serde_tag_ok, serde_sort_ok,
        serde_format_ok] <;> rfl

theorem strData_append (a b : String) : (a ++ b).data = a.data ++ b.data := rfl

theorem strData_empty : ("" : String).data = [] := rfl

theorem strExt {a b : String} (h : a.data = b.data) : a = b := by
  cases a
  cases b
  exact congrArg String.mk h

/-- C1: for every EtherscanRequest, build returns Ok of the deterministic,
order-fixed concatenation: base URL (empty if absent), then the module and
action segments exactly when the pair is present, then one segment per
present optional field in the fixed order contractaddress, address, tag,
page, offset, startblock, endblock, sort, txhash, blockno, timestamp,
format, apikey; every absent field contributes the empty string. -/
theorem build_renders_fixed_order_concatenation (r : EtherscanRequest) :
    r.build = Except.ok (
      (match r.url with | some url => url | none => "") ++
      (match r.module_action with | some (m, _) => "?module=" ++ moduleLabel m | none => "") ++
      (match r.module_action with | some (_, a) => "&action=" ++ actionLabel a | none => "") ++
      (match r.contractaddress with | some v => "&contractaddress=0x" ++ toUpperHex v | none => "") ++
      (match r.address with | some xs => "&address=" ++ joinComma (xs.map (fun x => "0x" ++ toUpperHex x)) | none => "") ++
      (match r.tag with | some t => "&tag=" ++ tagLabel t | none => "") ++
      (match r.page with | some v => "&page=" ++ toDec v | none => "") ++
      (match r.offset with | some v => "&offset=" ++ toDec v | none => "") ++
      (match r.startblock with | some v => "&startblock=" ++ toDec v | none => "") ++
      (match r.endblock with | some v => "&endblock=" ++ toDec v | none => "") ++
      (match r.sort with | some s => "&sort=" ++ sortLabel s | none => "") ++
      (match r.txhash with | some v => "&txhash=0x" ++ toUpperHex v | none => "") ++
      (match r.blockno with | some v => "&blockno=" ++ toDec v | none => "") ++
      (match r.timestamp with | some v => "&timestamp=" ++ toDec v | none => "") ++
      (match r.format with | some f => "&format=" ++ formatLabel f | none => "") ++
      (match r.apikey with | some k => "&apikey=" ++ k | none => "")) :=
  build_eq_ok r

/-- C7: rendering never fails at run time: for every request value, including
the Unknown module and action variants, build returns Ok; the error branch of
the fallible enum-tag serialization is unreachable because the tag mapping is
defined for every variant. -/
theorem build_never_fails (r : EtherscanRequest) :
    ∃ s : String, r.build = Except.ok s :=
  ⟨r.buildString, build_eq_ok r⟩

/-- C3: account_balance with address 0xAB and tag Latest, with base URL
http://x, renders exactly the example string of the spec. -/
theorem account_balance_example_render :
    ((EtherscanRequest.account_balance 0xAB (some EtherscanTag.Latest)).with_url
        "http://x").build
      = Except.ok "http://x?module=account&action=balance&address=0xAB&tag=latest" := by
  rfl

/-- C10: account_balance_multi with the empty address list leaves the address
field present as Some of the empty list, so the rendered query still emits the
address key with an empty value. -/
theorem account_balance_multi_empty_renders_empty_address :
    (EtherscanRequest.account_balance_multi [] none).build
      = Except.ok "?module=account&action=balancemulti&address=" := by
  rfl

/-- C2: contract_get_abi and contract_get_source_code render exactly the
fixed module contract with actions getabi and getsourcecode respectively,
followed by the contract address as the single parameter; nothing else is
emitted. -/
theorem contract_constructors_render_exact (a : Nat) :
    (EtherscanRequest.contract_get_abi a).build
      = Except.ok ("?module=contract&action=getabi&address=0x" ++ toUpperHex a) ∧
    (EtherscanRequest.contract_get_source_code a).build
      = Except.ok ("?module=contract&action=getsourcecode&address=0x" ++ toUpperHex a) := by
  constructor <;>
  · rw [build_eq_ok]
    refine congrArg Except.ok (strExt ?_)
    simp only [EtherscanRequest.buildString, EtherscanRequest.contract_get_abi,
      EtherscanRequest.contract_get_source_code, EtherscanRequest.default,
      joinComma, List.map, strData_append, strData_empty, List.append_assoc,
      List.append_nil, List.nil_append]
    rfl

/-- C6: the sort directions render to asc and desc, and every module, action,
tag and format variant renders to its fixed lowercase tag, exactly one string
per variant. -/
theorem enum_variants_render_fixed_tags :
    serde_to_string_sort .Ascending = .ok "asc" ∧
    serde_to_string_sort .Descending = .ok "desc" ∧
    serde_to_string_module .Unknown = .ok "unknown" ∧
    serde_to_string_module .Account = .ok "account" ∧
    serde_to_string_module .Contract = .ok "contract" ∧
    serde_to_string_module .Transaction = .ok "transaction" ∧
    serde_to_string_module .Block = .ok "block" ∧
    serde_to_string_module .Stats = .ok "stats" ∧
    serde_to_string_action .Unknown = .ok "unknown" ∧
    serde_to_string_action .Balance = .ok "balance" ∧
    serde_to_string_action .BalanceMulti = .ok "balancemulti" ∧
    serde_to_string_action .TxList = .ok "txlist" ∧
    serde_to_string_action .TxListInternal = .ok "txlistinternal" ∧
    serde_to_string_action .TokenTx = .ok "tokentx" ∧
    serde_to_string_action .TokenNftTx = .ok "tokennfttx" ∧
    serde_to_string_action .TokenBalance = .ok "tokenbalance" ∧
    serde_to_string_action .GetABI = .ok "getabi" ∧
    serde_to_string_action .GetSourceCode = .ok "getsourcecode" ∧
    serde_to_string_action .GetStatus = .ok "getstatus" ∧
    serde_to_string_action .GetTxReceiptStatus = .ok "gettxreceiptstatus" ∧
    serde_to_string_action .GetBlockReward = .ok "getblockreward" ∧
    serde_to_string_action .GetBlockCountdown = .ok "getblockcountdown" ∧
    serde_to_string_action .GetBlockNoByTime = .ok "getblocknobytime" ∧
    serde_to_string_action .TokenSupply = .ok "tokensupply" ∧
    serde_to_string_action .EthSupply = .ok "ethsupply" ∧
    serde_to_string_action .EthSupply2 = .ok "ethsupply2" ∧
    serde_to_string_action .EthPrice = .ok "ethprice" ∧
    serde_to_string_action .NodeCount = .ok "nodecount" ∧
    serde_to_string_tag .Latest = .ok "latest" ∧
    serde_to_string_format .Raw = .ok "raw" :=
  ⟨rfl, rfl, rfl, rfl, rfl, rfl, rfl, rfl, rfl, rfl, rfl, rfl, rfl, rfl, rfl,
   rfl, rfl, rfl, rfl, rfl, rfl, rfl, rfl, rfl, rfl, rfl, rfl, rfl, rfl, rfl⟩

/-- C8: with_url yields a value whose url field is the given one and whose
other fourteen fields are unchanged; with_apikey and with_format likewise
change only their own field. -/
theorem with_setters_change_only_their_field (r : EtherscanRequest)
    (u k : String) (f : EtherscanFormat) :
    ((r.with_url u).url = some u ∧
     (r.with_url u).module_action = r.module_action ∧
     (r.with_url u).contractaddress = r.contractaddress ∧
     (r.with_url u).address = r.address ∧
     (r.with_url u).tag = r.tag ∧
     (r.with_url u).startblock = r.startblock ∧
     (r.with_url u).endblock = r.endblock ∧
     (r.with_url u).page = r.page ∧
     (r.with_url u).offset = r.offset ∧
     (r.with_url u).sort = r.sort ∧
     (r.with_url u).txhash = r.txhash ∧
     (r.with_url u).blockno = r.blockno ∧
     (r.with_url u).timestamp = r.timestamp ∧
     (r.with_url u).format = r.format ∧
     (r.with_url u).apikey = r.apikey) ∧
    ((r.with_apikey k).apikey = some k ∧
     (r.with_apikey k).url = r.url ∧
     (r.with_apikey k).module_action = r.module_action ∧
     (r.with_apikey k).contractaddress = r.contractaddress ∧
     (r.with_apikey k).address = r.address ∧
     (r.with_apikey k).tag = r.tag ∧
     (r.with_apikey k).startblock = r.startblock ∧
     (r.with_apikey k).endblock = r.endblock ∧
     (r.with_apikey k).page = r.page ∧
     (r.with_apikey k).offset = r.offset ∧
     (r.with_apikey k).sort = r.sort ∧
     (r.with_apikey k).txhash = r.txhash ∧
     (r.with_apikey k).blockno = r.blockno ∧
     (r.with_apikey k).timestamp = r.timestamp ∧
     (r.with_apikey k).format = r.format) ∧
    ((r.with_format f).format = some f ∧
     (r.with_format f).url = r.url ∧
     (r.with_format f).module_action = r.module_action ∧
     (r.with_format f).contractaddress = r.contractaddress ∧
     (r.with_format f).address = r.address ∧
     (r.with_format f).tag = r.tag ∧
     (r.with_format f).startblock = r.startblock ∧
     (r.with_format f).endblock = r.endblock ∧
     (r.with_format f).page = r.page ∧
     (r.with_format f).offset = r.offset ∧
     (r.with_format f).sort = r.sort ∧
     (r.with_format f).txhash = r.txhash ∧
     (r.with_format f).blockno = r.blockno ∧
     (r.with_format f).timestamp = r.timestamp ∧
     (r.with_format f).apikey = r.apikey) :=
  ⟨⟨rfl, rfl, rfl, rfl, rfl, rfl, rfl, rfl, rfl, rfl, rfl, rfl, rfl, rfl, rfl⟩,
   ⟨rfl, rfl, rfl, rfl, rfl, rfl, rfl, rfl, rfl, rfl, rfl, rfl, rfl, rfl, rfl⟩,
   ⟨rfl, rfl, rfl, rfl, rfl, rfl, rfl, rfl, rfl, rfl, rfl, rfl, rfl, rfl, rfl⟩⟩

/-- C4: hex-slot values (contractaddress, address, txhash) render as 0x
followed by the uppercase hexadecimal digits with no extra zero padding, and
numeric-only fields (page, offset, startblock, endblock, blockno, timestamp)
render as plain decimal with no separators and no leading zeros. -/
theorem value_slots_render_hex_and_decimal (c a tx p off sb eb bn ts : Nat) :
    (EtherscanRequest.build
      { EtherscanRequest.default with
        contractaddress := some c
        address := some [a]
        page := some p
        offset := some off
        startblock := some sb
        endblock := some eb
        txhash := some tx
        blockno := some bn
        timestamp := some ts })
      = Except.ok ("&contractaddress=0x" ++ toUpperHex c ++ "&address=0x" ++ toUpperHex a
          ++ "&page=" ++ toDec p ++ "&offset=" ++ toDec off ++ "&startblock=" ++ toDec sb
          ++ "&endblock=" ++ toDec eb ++ "&txhash=0x" ++ toUpperHex tx
          ++ "&blockno=" ++ toDec bn ++ "&timestamp=" ++ toDec ts) ∧
    (∀ v : Nat,
      (∀ ch ∈ (toUpperHex v).data, isUpperHexDigit ch = true) ∧
      (v ≠ 0 → (toUpperHex v).data.head? ≠ some '0') ∧
      toUpperHex 0 = "0") ∧
    (∀ v : Nat,
      (∀ ch ∈ (toDec v).data, isDecDigit ch = true) ∧
      (v ≠ 0 → (toDec v).data.head? ≠ some '0') ∧
      toDec 0 = "0") := by
  refine ⟨?_, ?_, ?_⟩
  · rw [build_eq_ok]
    refine congrArg Except.ok (strExt ?_)
    simp only [EtherscanRequest.buildString, EtherscanRequest.default,
      joinComma, List.map, strData_append, strData_empty, List.append_assoc,
      List.append_nil, List.nil_append]
    rfl
  · intro v
    refine ⟨?_, ?_, rfl⟩
    · rw [toUpperHex_data]
      exact mem_hexChars_isUpperHexDigit v
    · intro hv
      rw [toUpperHex_data]
      exact hexChars_head_ne_zero v hv
  · intro v
    refine ⟨?_, ?_, rfl⟩
    · rw [toDec_data]
      exact mem_decChars_isDecDigit v
    · intro hv
      rw [toDec_data]
      exact decChars_head_ne_zero v hv

/-- Witness for C4 at the concrete value 171: the no-leading-zero conclusions
hold with their nonzero hypotheses discharged. -/
theorem value_slots_render_hex_and_decimal_witness :
    (171 : Nat) ≠ 0 ∧
    (toUpperHex 171).data.head? ≠ some '0' ∧
    (toDec 171).data.head? ≠ some '0' :=
  ⟨by decide,
   ((value_slots_render_hex_and_decimal 0 0 0 0 0 0 0 0 0).2.1 171).2.1 (by decide),
   ((value_slots_render_hex_and_decimal 0 0 0 0 0 0 0 0 0).2.2 171).2.1 (by decide)⟩

set_option linter.unusedVariables false in
/-- C5: for every 256-bit value, the text the address and hash slots render
consists of 0x followed only by uppercase hexadecimal digits (so the prefix is
never duplicated), and parsing that text yields the value back. -/
theorem hex_render_parse_roundtrip (v : Nat) (hv256 : v < 2 ^ 256) :
    (∀ ch ∈ (toUpperHex v).data, isUpperHexDigit ch = true) ∧
    parseHex ("0x" ++ toUpperHex v) = v := by
  refine ⟨?_, ?_⟩
  · rw [toUpperHex_data]
    exact mem_hexChars_isUpperHexDigit v
  · have hd : ("0x" ++ toUpperHex v).data = '0' :: 'x' :: hexChars v := by
      rw [strData_append, toUpperHex_data]
      rfl
    unfold parseHex
    rw [hd]
    exact foldl_hexChars v

/-- Witness for C5 at zero and at the maximum representable value. -/
theorem hex_render_parse_roundtrip_witness :
    ((0 : Nat) < 2 ^ 256 ∧ parseHex ("0x" ++ toUpperHex 0) = 0) ∧
    (2 ^ 256 - 1 < 2 ^ 256 ∧ parseHex ("0x" ++ toUpperHex (2 ^ 256 - 1)) = 2 ^ 256 - 1) :=
  ⟨⟨by norm_num, (hex_render_parse_roundtrip 0 (by norm_num)).2⟩,
   ⟨by norm_num, (hex_render_parse_roundtrip (2 ^ 256 - 1) (by norm_num)).2⟩⟩

/-- C9: in every request value the module and the action are jointly present
or jointly absent, because they live in one optional pair; accordingly the
rendering either contains neither segment or contains the module segment
immediately followed by the action segment. -/
theorem module_action_jointly_present (r : EtherscanRequest) :
    (r.module_action = none ∧ r.build = Except.ok (r.urlPart ++ r.tailSegments)) ∨
    (∃ m a, r.module_action = some (m, a) ∧
      r.build = Except.ok (r.urlPart ++ "?module=" ++ moduleLabel m ++
        "&action=" ++ actionLabel a ++ r.tailSegments)) := by
  rcases h : r.module_action with _ | ⟨m, a⟩
  · left
    refine ⟨rfl, ?_⟩
    rw [build_eq_ok]
    refine congrArg Except.ok (strExt ?_)
    simp only [EtherscanRequest.buildString, EtherscanRequest.urlPart,
      EtherscanRequest.tailSegments, h, strData_append, strData_empty,
      List.append_assoc, List.append_nil, List.nil_append]
  · right
    refine ⟨m, a, rfl, ?_⟩
    rw [build_eq_ok]
    refine congrArg Except.ok (strExt ?_)
    simp only [EtherscanRequest.buildString, EtherscanRequest.urlPart,
      EtherscanRequest.tailSegments, h, strData_append, strData_empty,
      List.append_assoc, List.append_nil, List.nil_append]
